import Mathlib

/-!
Verification of the LLM-as-judge evaluation engine in
`src/opik_mcp_server/evaluators.py` (with data model from
`src/opik_mcp_server/models.py`).

Shallow embedding conventions:
* Python `float` scores are modelled as `ℚ` (the spec asks only for
  equality up to floating-point tolerance); the literal `0.7` threshold is
  modelled as `7/10`, `0.5` as `1/2`.
* Python strings are Lean `String`s; the string methods the parser uses
  (`strip`, `split('\n')`, `upper`, `startswith`, `split(':', 1)`,
  whitespace `split()`) are re-implemented structurally on `List Char`,
  matching CPython semantics on the ASCII texts the program handles.
* External effects (the Bedrock judge call, the Opik sink, `uuid4`,
  wall-clock time, the user-supplied agent function) are modelled as
  explicit oracle arguments: an oracle value records what the external
  call returned (or that it raised), and the embedded control flow around
  it is translated from the source.
* `datetime` fields and the judge prompt texts are elided: no claim
  depends on them.
-/

/-- `EvaluationMetric` enum from models.py. -/
inductive EvaluationMetric
  | ACCURACY
  | RELEVANCE
  | COHERENCE
  | COMPLETENESS
  | FACTUALITY
  | HELPFULNESS
  | TOXICITY
  | BIAS
  | CONVERSATION_QUALITY
  | AGENT_COORDINATION
  | WORKFLOW_EFFICIENCY
deriving DecidableEq, Repr

/-- `AgentType` enum from models.py. -/
inductive AgentType
  | SINGLE
  | MULTI_AGENT
  | AGENT2AGENT
  | GRAPH
  | SWARM
  | WORKFLOW
deriving DecidableEq, Repr

/-- The `.value` string of an `AgentType` member. -/
def AgentType.value : AgentType → String
  | .SINGLE => "single"
  | .MULTI_AGENT => "multi_agent"
  | .AGENT2AGENT => "agent2agent"
  | .GRAPH => "graph"
  | .SWARM => "swarm"
  | .WORKFLOW => "workflow"

/-- Values stored in the free-form `Dict[str, Any]` metadata/context maps
(only strings and ints appear in the embedded code paths). -/
inductive MetaVal
  | str (s : String)
  | nat (n : Nat)
deriving DecidableEq, Repr

/-- `TestCase` model from models.py (datetime-free fields). -/
structure TestCase where
  id : Option String := none
  input : String
  expected_output : Option String := none
  context : List (String × MetaVal) := []
  metadata : List (String × MetaVal) := []
  session_id : Option String := none
deriving DecidableEq, Repr

/-- `AgentMessage` from models.py; the `timestamp`/`metadata` fields are
elided (no embedded code path inspects them). -/
structure AgentMessage where
  from_agent : String
  to_agent : String
  message : String
deriving DecidableEq, Repr

/-- `AgentConversation` from models.py. -/
structure AgentConversation where
  conversation_id : String
  agents : List String
  messages : List AgentMessage
  workflow_type : AgentType := AgentType.MULTI_AGENT
  metadata : List (String × MetaVal) := []
deriving DecidableEq, Repr

/-- `EvaluationRequest` from models.py. -/
structure EvaluationRequest where
  agent_id : String
  test_cases : List TestCase
  evaluators : List EvaluationMetric
  project_name : Option String := some "default"
  experiment_name : Option String := none
  metadata : List (String × MetaVal) := []
deriving Repr

/-- `MultiAgentEvaluationRequest` from models.py. -/
structure MultiAgentEvaluationRequest where
  workflow_id : String
  workflow_type : AgentType
  conversation : AgentConversation
  evaluators : List EvaluationMetric
  project_name : Option String := some "default"
  experiment_name : Option String := none
  metadata : List (String × MetaVal) := []
deriving Repr

/-- `EvaluationScore` from models.py, scores as `ℚ`. -/
structure EvaluationScore where
  metric : EvaluationMetric
  score : ℚ
  explanation : String
  passed : Bool
  threshold : ℚ
deriving DecidableEq, Repr

/-- `EvaluationResult` from models.py (the `timestamp` field is elided). -/
structure EvaluationResult where
  evaluation_id : String
  agent_id : Option String := none
  workflow_id : Option String := none
  test_case_id : Option String := none
  scores : List EvaluationScore
  overall_score : ℚ
  passed : Bool
  execution_time_ms : ℚ
  opik_trace_id : Option String := none
  session_id : Option String := none
  metadata : List (String × MetaVal) := []
deriving DecidableEq, Repr

/-! ### Python string primitives used by `LLMEvaluator._parse_llm_response`

Each is a structural re-implementation on `List Char` of the CPython
string method named in its doc comment. -/

/-- Python `str.strip()` (whitespace strip on both ends). -/
def pyStrip (cs : List Char) : List Char :=
  ((cs.dropWhile Char.isWhitespace).reverse.dropWhile Char.isWhitespace).reverse

/-- Python `str.split(sep)` for a one-character separator `c`
(keeps empty fields; `"".split(c) == [""]`). -/
def splitOnChar (c : Char) : List Char → List (List Char)
  | [] => [[]]
  | a :: t =>
    match splitOnChar c t, a == c with
    | r, true => [] :: r
    | h :: t2, false => (a :: h) :: t2
    | [], false => [[a]]

/-- Python `str.upper()` restricted to ASCII (char-wise uppercase). -/
def toUpperChars (cs : List Char) : List Char := cs.map Char.toUpper

/-- Python `str.startswith(pre)`. -/
def startsWithChars : List Char → List Char → Bool
  | [], _ => true
  | _ :: _, [] => false
  | p :: ps, c :: cs => p == c && startsWithChars ps cs

/-- Everything after the first `':'`, i.e. Python `s.split(':', 1)[1]`
(returns `[]` when no colon exists; the source only reaches this after a
`startswith` check that guarantees a colon). -/
def afterFirstColonChars (cs : List Char) : List Char :=
  (cs.dropWhile (· != ':')).drop 1

/-- First whitespace-separated token, i.e. Python `s.split()[0]`
(returns `[]` on all-whitespace input; the source only reaches this on a
stripped non-empty string). -/
def firstTokenChars (cs : List Char) : List Char :=
  (cs.dropWhile Char.isWhitespace).takeWhile (fun c => !c.isWhitespace)

/-! ### Python `float()` on decimal literals

`floatRep` is the syntactic phase (accepting exactly the sign /
digits / decimal-point / exponent shapes of a Python float literal;
`inf`/`nan`/underscore forms are not produced by the judge texts the
claims quantify over and are not modelled), `ratOfRep` is its exact
rational value. -/

/-- Shape of an accepted decimal float literal. -/
structure FloatRep where
  neg : Bool
  ip : List Char
  fp : List Char
  exp : Option (Bool × List Char)
deriving DecidableEq, Repr

/-- Digit run to a natural number (most significant first). -/
def natOfDigits (ds : List Char) : Nat :=
  ds.foldl (fun a c => a * 10 + (c.toNat - 48)) 0

/-- Syntactic parse of a decimal float literal: optional sign, integer
digits, optional `.` and fraction digits (at least one digit overall),
optional `e`/`E` exponent with its own optional sign and mandatory
digits, nothing trailing. -/
def floatRep (cs : List Char) : Option FloatRep :=
  let signRest : Bool × List Char :=
    match cs with
    | '-' :: t => (true, t)
    | '+' :: t => (false, t)
    | _ => (false, cs)
  let ip := signRest.2.takeWhile Char.isDigit
  let cs2 := signRest.2.dropWhile Char.isDigit
  let fpRest : List Char × List Char :=
    match cs2 with
    | '.' :: t => (t.takeWhile Char.isDigit, t.dropWhile Char.isDigit)
    | _ => ([], cs2)
  if ip.isEmpty && fpRest.1.isEmpty then none
  else
    match fpRest.2 with
    | [] => some ⟨signRest.1, ip, fpRest.1, none⟩
    | c :: t =>
      if c == 'e' || c == 'E' then
        let esignRest : Bool × List Char :=
          match t with
          | '-' :: u => (true, u)
          | '+' :: u => (false, u)
          | _ => (false, t)
        let ed := esignRest.2.takeWhile Char.isDigit
        let rest := esignRest.2.dropWhile Char.isDigit
        if ed.isEmpty || !rest.isEmpty then none
        else some ⟨signRest.1, ip, fpRest.1, some (esignRest.1, ed)⟩
      else none

/-- Exact rational value of an accepted float literal. -/
def ratOfRep (r : FloatRep) : ℚ :=
  let mant : ℚ := (natOfDigits r.ip : ℚ) + (natOfDigits r.fp : ℚ) / (10 : ℚ) ^ r.fp.length
  let signed : ℚ := if r.neg then -mant else mant
  match r.exp with
  | none => signed
  | some (eneg, ed) =>
    if eneg then signed / (10 : ℚ) ^ natOfDigits ed
    else signed * (10 : ℚ) ^ natOfDigits ed

/-- Python `float(s)` on the decimal subset, as an exact rational. -/
def pyFloat (s : String) : Option ℚ := (floatRep s.toList).map ratOfRep

/-! ### `LLMEvaluator._parse_llm_response` (evaluators.py lines 75-95) -/

/-- How the parser's loop body treats one line: a `SCORE:` line carrying
the token passed to `float()`, an `EXPLANATION:` line carrying the
stripped text after the colon, or neither. Mirrors the
`line.upper().strip().startswith(...)` tests and the
`line.split(':', 1)[1].strip()` / `score_str.split()[0] if score_str
else "0.5"` extractions of the source. -/
inductive LineClass
  | score (tok : String)
  | expl (txt : String)
  | other
deriving DecidableEq, Repr

/-- Classify one line exactly as the loop body of
`_parse_llm_response` does. -/
def classifyLine (line : List Char) : LineClass :=
  let lu := pyStrip (toUpperChars line)
  if startsWithChars "SCORE:".toList lu then
    let scoreStr := pyStrip (afterFirstColonChars line)
    LineClass.score (if scoreStr.isEmpty then "0.5" else (firstTokenChars scoreStr).asString)
  else if startsWithChars "EXPLANATION:".toList lu then
    LineClass.expl (pyStrip (afterFirstColonChars line)).asString
  else LineClass.other

/-- One iteration of the parser loop over state `(score, explanation)`.
A `SCORE:` line whose token `float()` rejects raises `ValueError`,
modelled as `Except.error` carrying CPython's message. -/
def stepLine (st : ℚ × String) (line : List Char) : Except String (ℚ × String) :=
  match classifyLine line with
  | LineClass.score tok =>
    match pyFloat tok with
    | some v => Except.ok (v, st.2)
    | none => Except.error ("could not convert string to float: '" ++ tok ++ "'")
  | LineClass.expl txt => Except.ok (st.1, txt)
  | LineClass.other => Except.ok st

/-- The parser loop: first raised exception aborts the remaining lines. -/
def parseLinesGo (st : ℚ × String) : List (List Char) → Except String (ℚ × String)
  | [] => Except.ok st
  | l :: ls =>
    match stepLine st l with
    | Except.ok st2 => parseLinesGo st2 ls
    | Except.error e => Except.error e

/-- `LLMEvaluator._parse_llm_response`: state starts at
`(0.5, "Evaluation completed")`; on success the score is clamped with
`max(0.0, min(1.0, score))`; on an exception the fallback is
`(0.5, "Failed to parse evaluation: <message>")`. -/
def parse_llm_response (response : String) : ℚ × String :=
  match parseLinesGo (1/2, "Evaluation completed") (splitOnChar '\n' (pyStrip response.toList)) with
  | Except.ok st => (max 0 (min 1 st.1), st.2)
  | Except.error msg => (1/2, "Failed to parse evaluation: " ++ msg)

/-- True when the loop body would raise on this line (a `SCORE:` line
whose token `float()` rejects). -/
def lineFails (line : List Char) : Bool :=
  match classifyLine line with
  | LineClass.score tok => (pyFloat tok).isNone
  | _ => false

/-- Exception-free meaning of one loop iteration (equals `stepLine` when
`lineFails` is false). -/
def updLine (st : ℚ × String) (line : List Char) : ℚ × String :=
  match classifyLine line with
  | LineClass.score tok => ((pyFloat tok).getD st.1, st.2)
  | LineClass.expl txt => (st.1, txt)
  | LineClass.other => st

example : classifyLine "SCORE: 0.83".toList = LineClass.score "0.83" := by decide
example : classifyLine " score: 1.4 extra".toList = LineClass.score "1.4" := by decide
example : classifyLine "EXPLANATION: looks good".toList = LineClass.expl "looks good" := by decide
example : classifyLine "SCORE:".toList = LineClass.score "0.5" := by decide
example : classifyLine "hello".toList = LineClass.other := by decide
example : floatRep "0.83".toList = some ⟨false, ['0'], ['8', '3'], none⟩ := by decide
example : floatRep "abc".toList = none := by decide
example : floatRep "1.2.3".toList = none := by decide

/-! ### Metric dispatch (`OpikEvaluator.__init__` / `_get_metric_evaluators`) -/

/-- The concrete metric evaluator classes of evaluators.py. -/
inductive MetricEvaluatorKind
  | accuracy
  | relevance
  | coherence
  | helpfulness
  | conversation_quality
  | agent_coordination
  | workflow_efficiency
deriving DecidableEq, Repr

/-- The `_metric_mapping` dict built in `OpikEvaluator.__init__`
(membership lookup; metrics absent from the dict give `none`). -/
def metric_mapping : EvaluationMetric → Option MetricEvaluatorKind
  | EvaluationMetric.ACCURACY => some MetricEvaluatorKind.accuracy
  | EvaluationMetric.RELEVANCE => some MetricEvaluatorKind.relevance
  | EvaluationMetric.COHERENCE => some MetricEvaluatorKind.coherence
  | EvaluationMetric.HELPFULNESS => some MetricEvaluatorKind.helpfulness
  | EvaluationMetric.CONVERSATION_QUALITY => some MetricEvaluatorKind.conversation_quality
  | EvaluationMetric.AGENT_COORDINATION => some MetricEvaluatorKind.agent_coordination
  | EvaluationMetric.WORKFLOW_EFFICIENCY => some MetricEvaluatorKind.workflow_efficiency
  | _ => none

/-- `OpikEvaluator._get_metric_evaluators`: one evaluator per requested
metric, defaulting to a fresh `AccuracyMetric()` for unmapped metrics. -/
def get_metric_evaluators (metrics : List EvaluationMetric) : List MetricEvaluatorKind :=
  metrics.map (fun m => (metric_mapping m).getD MetricEvaluatorKind.accuracy)

/-! ### Oracles for external effects -/

/-- Outcome of one `await evaluator.score(...)` call: the returned
`(score, explanation)` pair, or the exception message when the call
raised. -/
inductive MetricOutcome
  | ok (score : ℚ) (explanation : String)
  | exn (msg : String)

/-- Outcome of the `self.client.trace(...)` call inside
`_log_trace_to_opik`: a trace object whose `.id` attribute is present or
absent, or an exception. -/
inductive SinkOutcome
  | ok (traceId : Option String)
  | exn (msg : String)

/-- `OpikEvaluator._log_trace_to_opik` (lines 435-457): returns
`trace.id` when the sink call succeeds and the object has an `id`
attribute, otherwise the evaluation id; a sink exception is caught,
logged, and the evaluation id is returned.  The embedding is total: no
path propagates an exception to the caller. -/
def log_trace_to_opik (evaluation_id : String) (sink : SinkOutcome) : String :=
  match sink with
  | SinkOutcome.ok (some traceId) => traceId
  | SinkOutcome.ok none => evaluation_id
  | SinkOutcome.exn _ => evaluation_id

/-! ### The per-metric scoring loop shared by `evaluate_single_case`
(lines 489-515, failure text `"Evaluation failed: "`) and
`evaluate_multiagent_workflow` (lines 650-675, failure text
`"Multi-agent evaluation failed: "`).  Both loops are
`for i, metric in enumerate(metrics)` with body
`if i < len(metric_evaluators): ... scores.append(...)` in a per-metric
`try`/`except`. -/

/-- The `EvaluationScore` appended for metric `m` at loop index `i`:
the success branch builds it from the evaluator's pair with
`passed = score_value >= 0.7, threshold = 0.7`; the `except` branch
substitutes score `0.0` with the evaluator-specific failure text. -/
def scoreEntry (failText : String) (outcome : Nat → MetricOutcome) (i : Nat)
    (m : EvaluationMetric) : EvaluationScore :=
  match outcome i with
  | MetricOutcome.ok v e => ⟨m, v, e, decide ((7 : ℚ)/10 ≤ v), 7/10⟩
  | MetricOutcome.exn msg => ⟨m, 0, failText ++ msg, false, 7/10⟩

/-- The scoring loop with its literal `i < len(metric_evaluators)` guard
(`len` argument); a guarded-out index appends nothing. -/
def caseScoresGo (failText : String) (outcome : Nat → MetricOutcome) (len : Nat) :
    Nat → List EvaluationMetric → List EvaluationScore
  | _, [] => []
  | i, m :: ms =>
    (if i < len then [scoreEntry failText outcome i m] else [])
      ++ caseScoresGo failText outcome len (i + 1) ms

/-- The scores list collected by the loop, starting at index 0 with the
guard bound `len(self._get_metric_evaluators(metrics))`. -/
def caseScores (metrics : List EvaluationMetric) (outcome : Nat → MetricOutcome)
    (failText : String) : List EvaluationScore :=
  caseScoresGo failText outcome (get_metric_evaluators metrics).length 0 metrics

/-- Guard-free form of the loop (the guard is always true because
`_get_metric_evaluators` returns one evaluator per metric); equality is
proved in `caseScores_eq_scoresSpec`. -/
def scoresSpec (failText : String) (outcome : Nat → MetricOutcome) :
    Nat → List EvaluationMetric → List EvaluationScore
  | _, [] => []
  | i, m :: ms => scoreEntry failText outcome i m :: scoresSpec failText outcome (i + 1) ms

/-! ### `OpikEvaluator.evaluate_single_case` (lines 459-542) -/

/-- `OpikEvaluator.evaluate_single_case`.  Oracle arguments:
`evaluation_id` for `uuid.uuid4()`, `outcome i` for the i-th
`await evaluator.score(...)`, `execution_time_ms` for the wall-clock
measurement, `sink` for the Opik trace call.  `agent_response` flows
only into the sink payload. -/
def evaluate_single_case (test_case : TestCase) (agent_response : String)
    (metrics : List EvaluationMetric) (evaluation_id : String)
    (outcome : Nat → MetricOutcome) (execution_time_ms : ℚ)
    (sink : SinkOutcome) : EvaluationResult :=
  let scores := caseScores metrics outcome "Evaluation failed: "
  let overall_score : ℚ :=
    if scores.isEmpty then 0
    else (scores.map EvaluationScore.score).sum / (scores.length : ℚ)
  let passed := decide ((7 : ℚ)/10 ≤ overall_score)
  let opik_trace_id := log_trace_to_opik evaluation_id sink
  { evaluation_id := evaluation_id
    agent_id := none
    workflow_id := none
    test_case_id := test_case.id
    scores := scores
    overall_score := overall_score
    passed := passed
    execution_time_ms := execution_time_ms
    opik_trace_id := some opik_trace_id
    session_id := test_case.session_id
    metadata := test_case.metadata }

/-! ### `AgentEvaluator` (lines 545-614) -/

/-- Outcome of `await agent_function(...)` under `asyncio.wait_for`:
normal return (already stringified), a timeout, or another exception. -/
inductive AgentOutcome
  | ok (response : String)
  | timeout
  | exn (msg : String)

/-- `AgentEvaluator._execute_agent_safely` (lines 597-614). -/
def execute_agent_safely (outcome : AgentOutcome) : String :=
  match outcome with
  | AgentOutcome.ok response => response
  | AgentOutcome.timeout => "Agent execution timed out"
  | AgentOutcome.exn msg => "Agent execution failed: " ++ msg

/-- Oracles consumed while processing one test case of
`evaluate_agent`: `orch = some msg` means the per-case `try` body raised
with message `msg` (an orchestration failure, distinct from the agent
call which `_execute_agent_safely` already absorbs);
`failed_evaluation_id` is the `uuid.uuid4()` drawn in the `except`
branch. -/
structure CaseOracle where
  orch : Option String := none
  agent : AgentOutcome
  metricOutcome : Nat → MetricOutcome
  evaluation_id : String
  execution_time_ms : ℚ
  sink : SinkOutcome
  failed_evaluation_id : String

/-- Body of the per-test-case loop of `AgentEvaluator.evaluate_agent`
(lines 560-593): run the agent safely, evaluate the response, set
`result.agent_id`; on an orchestration exception append the failed
result with empty scores and the error in metadata. -/
def run_test_case (request : EvaluationRequest) (test_case : TestCase)
    (o : CaseOracle) : EvaluationResult :=
  match o.orch with
  | some err =>
    { evaluation_id := o.failed_evaluation_id
      agent_id := some request.agent_id
      workflow_id := none
      test_case_id := test_case.id
      scores := []
      overall_score := 0
      passed := false
      execution_time_ms := 0
      opik_trace_id := none
      session_id := test_case.session_id
      metadata := [("error", MetaVal.str err)] }
  | none =>
    let agent_response := execute_agent_safely o.agent
    let r := evaluate_single_case test_case agent_response request.evaluators
      o.evaluation_id o.metricOutcome o.execution_time_ms o.sink
    { r with agent_id := some request.agent_id }

/-- The loop of `evaluate_agent`, indexed so each test case consumes its
own oracles. -/
def evalAgentGo (request : EvaluationRequest) (oracles : Nat → CaseOracle) :
    Nat → List TestCase → List EvaluationResult
  | _, [] => []
  | i, tc :: rest =>
    run_test_case request tc (oracles i) :: evalAgentGo request oracles (i + 1) rest

/-- `AgentEvaluator.evaluate_agent` (lines 548-595): one result per test
case, in order. -/
def evaluate_agent (request : EvaluationRequest) (oracles : Nat → CaseOracle) :
    List EvaluationResult :=
  evalAgentGo request oracles 0 request.test_cases

/-! ### `ConversationQualityMetric.score` (lines 265-305) -/

/-- `ConversationQualityMetric.score`: `input_data["messages"]` and
`input_data["conversation"]`, with the short-circuit
`if not messages and not conversation`.  The prompt build is elided; the
judge is modelled by its response text `judgeResponse`, and the second
component of the result records whether the judge was invoked. -/
def conversation_quality_score (messages : List AgentMessage) (conversation : String)
    (judgeResponse : String) : (ℚ × String) × Bool :=
  if messages.isEmpty && conversation.isEmpty then
    ((0, "No conversation data provided"), false)
  else
    (parse_llm_response judgeResponse, true)

/-! ### `MultiAgentEvaluator` (lines 617-774) -/

/-- `MultiAgentEvaluator.evaluate_multiagent_workflow` (lines 620-705).
Oracle arguments as in `evaluate_single_case`; the per-metric failure
text here is `"Multi-agent evaluation failed: "`. -/
def evaluate_multiagent_workflow (request : MultiAgentEvaluationRequest)
    (evaluation_id : String) (outcome : Nat → MetricOutcome)
    (execution_time_ms : ℚ) (sink : SinkOutcome) : EvaluationResult :=
  let scores := caseScores request.evaluators outcome "Multi-agent evaluation failed: "
  let overall_score : ℚ :=
    if scores.isEmpty then 0
    else (scores.map EvaluationScore.score).sum / (scores.length : ℚ)
  let passed := decide ((7 : ℚ)/10 ≤ overall_score)
  let opik_trace_id := log_trace_to_opik evaluation_id sink
  { evaluation_id := evaluation_id
    agent_id := none
    workflow_id := some request.workflow_id
    test_case_id := none
    scores := scores
    overall_score := overall_score
    passed := passed
    execution_time_ms := execution_time_ms
    opik_trace_id := some opik_trace_id
    session_id := none
    metadata := [("workflow_type", MetaVal.str request.workflow_type.value),
                 ("agent_count", MetaVal.nat request.conversation.agents.length),
                 ("message_count", MetaVal.nat request.conversation.messages.length)] }

/-- `MultiAgentEvaluator._evaluate_a2a_protocol_compliance_llm`
(lines 739-774): short-circuits on an empty conversation, otherwise
parses the judge's response text. -/
def evaluate_a2a_protocol_compliance (conversation : AgentConversation)
    (judgeResponse : String) : ℚ × String :=
  if conversation.messages.isEmpty then (0, "No messages in conversation")
  else parse_llm_response judgeResponse

/-- `MultiAgentEvaluator.evaluate_agent2agent_flow` (lines 714-737):
base workflow evaluation, then one `AGENT_COORDINATION` score appended
and `overall_score`/`passed` recomputed over the extended list. -/
def evaluate_agent2agent_flow (request : MultiAgentEvaluationRequest)
    (evaluation_id : String) (outcome : Nat → MetricOutcome)
    (execution_time_ms : ℚ) (sink : SinkOutcome)
    (a2aJudgeResponse : String) : EvaluationResult :=
  let result := evaluate_multiagent_workflow request evaluation_id outcome
    execution_time_ms sink
  let a2a := evaluate_a2a_protocol_compliance request.conversation a2aJudgeResponse
  let a2a_eval_score : EvaluationScore :=
    ⟨EvaluationMetric.AGENT_COORDINATION, a2a.1, a2a.2, decide ((7 : ℚ)/10 ≤ a2a.1), 7/10⟩
  let scores := result.scores ++ [a2a_eval_score]
  let overall_score : ℚ := (scores.map EvaluationScore.score).sum / (scores.length : ℚ)
  { result with
      scores := scores
      overall_score := overall_score
      passed := decide ((7 : ℚ)/10 ≤ overall_score) }

/-! ### Helper lemmas -/

theorem get_metric_evaluators_length (metrics : List EvaluationMetric) :
    (get_metric_evaluators metrics).length = metrics.length := by
  simp [get_metric_evaluators]

theorem caseScoresGo_eq_scoresSpec (failText : String) (outcome : Nat → MetricOutcome)
    (len : Nat) : ∀ (ms : List EvaluationMetric) (i : Nat), i + ms.length ≤ len →
    caseScoresGo failText outcome len i ms = scoresSpec failText outcome i ms := by
  intro ms
  induction ms with
  | nil => intro i _; rfl
  | cons m t ih =>
    intro i h
    simp only [List.length_cons] at h
    have hi : i < len := by omega
    have ht : i + 1 + t.length ≤ len := by omega
    simp [caseScoresGo, scoresSpec, hi, ih (i + 1) ht]

theorem caseScores_eq_scoresSpec (metrics : List EvaluationMetric)
    (outcome : Nat → MetricOutcome) (failText : String) :
    caseScores metrics outcome failText = scoresSpec failText outcome 0 metrics := by
  rw [caseScores]
  exact caseScoresGo_eq_scoresSpec failText outcome _ metrics 0
    (by rw [get_metric_evaluators_length]; omega)

theorem scoresSpec_length (failText : String) (outcome : Nat → MetricOutcome) :
    ∀ (i : Nat) (ms : List EvaluationMetric),
    (scoresSpec failText outcome i ms).length = ms.length := by
  intro i ms
  induction ms generalizing i with
  | nil => rfl
  | cons m t ih => simp [scoresSpec, ih]

theorem scoresSpec_get (failText : String) (outcome : Nat → MetricOutcome) :
    ∀ (ms : List EvaluationMetric) (i j : Nat)
    (h1 : j < (scoresSpec failText outcome i ms).length) (h2 : j < ms.length),
    (scoresSpec failText outcome i ms).get ⟨j, h1⟩
      = scoreEntry failText outcome (i + j) (ms.get ⟨j, h2⟩) := by
  intro ms
  induction ms with
  | nil => intro i j _ h2; exact absurd h2 (by simp)
  | cons m t ih =>
    intro i j h1 h2
    cases j with
    | zero => simp [scoresSpec]
    | succ k =>
      have hk1 : k < (scoresSpec failText outcome (i + 1) t).length := by
        simp only [scoresSpec_length]
        simpa using h2
      have hk2 : k < t.length := by simpa using h2
      have := ih (i + 1) k hk1 hk2
      simpa [scoresSpec, Nat.add_assoc, Nat.add_comm 1 k] using this

theorem stepLine_eq_ok_updLine (st : ℚ × String) (l : List Char)
    (h : lineFails l = false) : stepLine st l = Except.ok (updLine st l) := by
  unfold lineFails at h
  cases hc : classifyLine l with
  | score tok =>
    rw [hc] at h
    cases hv : pyFloat tok with
    | some v => simp [stepLine, updLine, hc, hv]
    | none => simp [hv] at h
  | expl txt => simp [stepLine, updLine, hc]
  | other => simp [stepLine, updLine, hc]

theorem parseLinesGo_append_ok (ls : List (List Char)) :
    ∀ (st : ℚ × String) (rest : List (List Char)),
    (∀ l ∈ ls, lineFails l = false) →
    parseLinesGo st (ls ++ rest) = parseLinesGo (ls.foldl updLine st) rest := by
  induction ls with
  | nil => intro st rest _; rfl
  | cons a t ih =>
    intro st rest h
    have ha : lineFails a = false := h a (by simp)
    have ht : ∀ l ∈ t, lineFails l = false := fun l hl => h l (by simp [hl])
    simp only [List.cons_append, parseLinesGo, stepLine_eq_ok_updLine st a ha,
      List.foldl_cons]
    exact ih (updLine st a) rest ht

theorem parseLinesGo_ok (ls : List (List Char)) (st : ℚ × String)
    (h : ∀ l ∈ ls, lineFails l = false) :
    parseLinesGo st ls = Except.ok (ls.foldl updLine st) := by
  have := parseLinesGo_append_ok ls st [] h
  simpa [parseLinesGo] using this

theorem lineFails_of_not_score (l : List Char)
    (h : ∀ tok, classifyLine l ≠ LineClass.score tok) : lineFails l = false := by
  unfold lineFails
  cases hc : classifyLine l with
  | score tok => exact absurd hc (h tok)
  | expl txt => rfl
  | other => rfl

theorem foldl_updLine_other (ls : List (List Char)) :
    ∀ (st : ℚ × String), (∀ l ∈ ls, classifyLine l = LineClass.other) →
    ls.foldl updLine st = st := by
  induction ls with
  | nil => intro st _; rfl
  | cons a t ih =>
    intro st h
    have ha : classifyLine a = LineClass.other := h a (by simp)
    have ht : ∀ l ∈ t, classifyLine l = LineClass.other := fun l hl => h l (by simp [hl])
    simp only [List.foldl_cons]
    rw [show updLine st a = st by simp [updLine, ha]]
    exact ih st ht

theorem foldl_updLine_fst (ls : List (List Char)) :
    ∀ (st : ℚ × String), (∀ l ∈ ls, ∀ tok, classifyLine l ≠ LineClass.score tok) →
    (ls.foldl updLine st).1 = st.1 := by
  induction ls with
  | nil => intro st _; rfl
  | cons a t ih =>
    intro st h
    have ht : ∀ l ∈ t, ∀ tok, classifyLine l ≠ LineClass.score tok :=
      fun l hl => h l (by simp [hl])
    simp only [List.foldl_cons]
    cases hc : classifyLine a with
    | score tok => exact absurd hc (h a (by simp) tok)
    | expl txt =>
      rw [show updLine st a = (st.1, txt) by simp [updLine, hc]]
      exact ih (st.1, txt) ht
    | other =>
      rw [show updLine st a = st by simp [updLine, hc]]
      exact ih st ht

theorem foldl_updLine_snd (ls : List (List Char)) :
    ∀ (st : ℚ × String), (∀ l ∈ ls, ∀ txt, classifyLine l ≠ LineClass.expl txt) →
    (ls.foldl updLine st).2 = st.2 := by
  induction ls with
  | nil => intro st _; rfl
  | cons a t ih =>
    intro st h
    have ht : ∀ l ∈ t, ∀ txt, classifyLine l ≠ LineClass.expl txt :=
      fun l hl => h l (by simp [hl])
    simp only [List.foldl_cons]
    cases hc : classifyLine a with
    | score tok =>
      rw [show updLine st a = ((pyFloat tok).getD st.1, st.2) by simp [updLine, hc]]
      exact ih _ ht
    | expl txt => exact absurd hc (h a (by simp) txt)
    | other =>
      rw [show updLine st a = st by simp [updLine, hc]]
      exact ih st ht

theorem evalAgentGo_length (request : EvaluationRequest) (oracles : Nat → CaseOracle) :
    ∀ (i : Nat) (tcs : List TestCase),
    (evalAgentGo request oracles i tcs).length = tcs.length := by
  intro i tcs
  induction tcs generalizing i with
  | nil => rfl
  | cons tc t ih => simp [evalAgentGo, ih]

theorem evalAgentGo_get (request : EvaluationRequest) (oracles : Nat → CaseOracle) :
    ∀ (tcs : List TestCase) (i j : Nat)
    (h1 : j < (evalAgentGo request oracles i tcs).length) (h2 : j < tcs.length),
    (evalAgentGo request oracles i tcs).get ⟨j, h1⟩
      = run_test_case request (tcs.get ⟨j, h2⟩) (oracles (i + j)) := by
  intro tcs
  induction tcs with
  | nil => intro i j _ h2; exact absurd h2 (by simp)
  | cons tc t ih =>
    intro i j h1 h2
    cases j with
    | zero => simp [evalAgentGo]
    | succ k =>
      have hk1 : k < (evalAgentGo request oracles (i + 1) t).length := by
        simp only [evalAgentGo_length]
        simpa using h2
      have hk2 : k < t.length := by simpa using h2
      have := ih (i + 1) k hk1 hk2
      simpa [evalAgentGo, Nat.add_assoc, Nat.add_comm 1 k] using this

/-! ### Additional characterization helpers for the claim theorems -/

theorem scoresSpec_getElem (failText : String) (outcome : Nat → MetricOutcome) :
    ∀ (ms : List EvaluationMetric) (i j : Nat)
    (h1 : j < (scoresSpec failText outcome i ms).length) (h2 : j < ms.length),
    (scoresSpec failText outcome i ms)[j] = scoreEntry failText outcome (i + j) ms[j] := by
  intro ms i j h1 h2
  have := scoresSpec_get failText outcome ms i j h1 h2
  simpa [List.get_eq_getElem] using this

theorem evaluate_single_case_scores (tc : TestCase) (resp : String)
    (metrics : List EvaluationMetric) (eid : String) (o : Nat → MetricOutcome)
    (t : ℚ) (sink : SinkOutcome) :
    (evaluate_single_case tc resp metrics eid o t sink).scores
      = scoresSpec "Evaluation failed: " o 0 metrics := by
  simp [evaluate_single_case, caseScores_eq_scoresSpec]

theorem evaluate_multiagent_workflow_scores (req : MultiAgentEvaluationRequest)
    (eid : String) (o : Nat → MetricOutcome) (t : ℚ) (sink : SinkOutcome) :
    (evaluate_multiagent_workflow req eid o t sink).scores
      = scoresSpec "Multi-agent evaluation failed: " o 0 req.evaluators := by
  simp [evaluate_multiagent_workflow, caseScores_eq_scoresSpec]

theorem evaluate_single_case_overall (tc : TestCase) (resp : String)
    (metrics : List EvaluationMetric) (eid : String) (o : Nat → MetricOutcome)
    (t : ℚ) (sink : SinkOutcome) :
    (evaluate_single_case tc resp metrics eid o t sink).overall_score
      = (if (evaluate_single_case tc resp metrics eid o t sink).scores.isEmpty then 0
         else ((evaluate_single_case tc resp metrics eid o t sink).scores.map
            EvaluationScore.score).sum /
          ((evaluate_single_case tc resp metrics eid o t sink).scores.length : ℚ)) := by
  simp [evaluate_single_case]

theorem evaluate_multiagent_workflow_overall (req : MultiAgentEvaluationRequest)
    (eid : String) (o : Nat → MetricOutcome) (t : ℚ) (sink : SinkOutcome) :
    (evaluate_multiagent_workflow req eid o t sink).overall_score
      = (if (evaluate_multiagent_workflow req eid o t sink).scores.isEmpty then 0
         else ((evaluate_multiagent_workflow req eid o t sink).scores.map
            EvaluationScore.score).sum /
          ((evaluate_multiagent_workflow req eid o t sink).scores.length : ℚ)) := by
  simp [evaluate_multiagent_workflow]

theorem evaluate_single_case_passed (tc : TestCase) (resp : String)
    (metrics : List EvaluationMetric) (eid : String) (o : Nat → MetricOutcome)
    (t : ℚ) (sink : SinkOutcome) :
    (evaluate_single_case tc resp metrics eid o t sink).passed
      = decide ((7 : ℚ)/10 ≤ (evaluate_single_case tc resp metrics eid o t sink).overall_score) := by
  simp [evaluate_single_case]

theorem evaluate_multiagent_workflow_passed (req : MultiAgentEvaluationRequest)
    (eid : String) (o : Nat → MetricOutcome) (t : ℚ) (sink : SinkOutcome) :
    (evaluate_multiagent_workflow req eid o t sink).passed
      = decide ((7 : ℚ)/10 ≤ (evaluate_multiagent_workflow req eid o t sink).overall_score) := by
  simp [evaluate_multiagent_workflow]

/-! ### Claim C1 -/

/-- C1 counterexample: the claimed "overall_score == 0.0 iff scores is
empty" fails.  A single-case evaluation of the one metric `ACCURACY`
whose evaluator returns score `0.0` produces a non-empty scores list
with `overall_score = 0.0`. -/
theorem c1_zero_mean_nonempty_counterexample :
    (evaluate_single_case { input := "q" } "resp" [EvaluationMetric.ACCURACY] "eid"
      (fun _ => MetricOutcome.ok 0 "zero") 0 (SinkOutcome.ok none)).overall_score = 0 ∧
    (evaluate_single_case { input := "q" } "resp" [EvaluationMetric.ACCURACY] "eid"
      (fun _ => MetricOutcome.ok 0 "zero") 0 (SinkOutcome.ok none)).scores ≠ [] := by
  rw [evaluate_single_case_overall, evaluate_single_case_scores]
  simp [scoresSpec, scoreEntry]

/-- C1 (amended): for every result of `evaluate_single_case` or
`evaluate_multiagent_workflow`, the scores list is empty iff the
requested metric list is empty; `overall_score` is `0.0` when the scores
list is empty and otherwise equals the arithmetic mean of the component
scores (the converse of the original "iff" fails: a non-empty list whose
mean is 0 also yields `overall_score = 0`); and
`passed == (overall_score >= 0.7)`. -/
theorem c1_overall_score_mean_amended (tc : TestCase) (resp : String)
    (metrics : List EvaluationMetric) (eid : String) (o : Nat → MetricOutcome)
    (t : ℚ) (sink : SinkOutcome)
    (req : MultiAgentEvaluationRequest) (eid2 : String) (o2 : Nat → MetricOutcome)
    (t2 : ℚ) (sink2 : SinkOutcome)
    (r : EvaluationResult) (hr : r = evaluate_single_case tc resp metrics eid o t sink)
    (w : EvaluationResult) (hw : w = evaluate_multiagent_workflow req eid2 o2 t2 sink2) :
    ((r.scores = [] ↔ metrics = []) ∧
     (r.scores = [] → r.overall_score = 0) ∧
     (r.scores ≠ [] → r.overall_score
        = (r.scores.map EvaluationScore.score).sum / (r.scores.length : ℚ)) ∧
     (r.passed = true ↔ (7 : ℚ)/10 ≤ r.overall_score)) ∧
    ((w.scores = [] ↔ req.evaluators = []) ∧
     (w.scores = [] → w.overall_score = 0) ∧
     (w.scores ≠ [] → w.overall_score
        = (w.scores.map EvaluationScore.score).sum / (w.scores.length : ℚ)) ∧
     (w.passed = true ↔ (7 : ℚ)/10 ≤ w.overall_score)) := by
  subst hr hw
  refine ⟨⟨?_, ?_, ?_, ?_⟩, ?_, ?_, ?_, ?_⟩
  · rw [evaluate_single_case_scores, ← List.length_eq_zero,
      scoresSpec_length, List.length_eq_zero]
  · intro h
    rw [evaluate_single_case_overall, h]
    simp
  · intro h
    rw [evaluate_single_case_overall, if_neg (by simpa using h)]
  · rw [evaluate_single_case_passed]
    simp
  · rw [evaluate_multiagent_workflow_scores, ← List.length_eq_zero,
      scoresSpec_length, List.length_eq_zero]
  · intro h
    rw [evaluate_multiagent_workflow_overall, h]
    simp
  · intro h
    rw [evaluate_multiagent_workflow_overall, if_neg (by simpa using h)]
  · rw [evaluate_multiagent_workflow_passed]
    simp

/-- C1 witness: the amended statement instantiated at a one-metric
single-case evaluation and a one-metric workflow evaluation. -/
theorem c1_overall_score_mean_witness :
    (((evaluate_single_case { input := "q" } "resp" [EvaluationMetric.ACCURACY] "eid"
        (fun _ => MetricOutcome.ok (9/10) "good") 0 (SinkOutcome.ok none)).scores = []
        ↔ ([EvaluationMetric.ACCURACY] : List EvaluationMetric) = []) ∧
     ((evaluate_single_case { input := "q" } "resp" [EvaluationMetric.ACCURACY] "eid"
        (fun _ => MetricOutcome.ok (9/10) "good") 0 (SinkOutcome.ok none)).scores = [] →
      (evaluate_single_case { input := "q" } "resp" [EvaluationMetric.ACCURACY] "eid"
        (fun _ => MetricOutcome.ok (9/10) "good") 0 (SinkOutcome.ok none)).overall_score = 0) ∧
     ((evaluate_single_case { input := "q" } "resp" [EvaluationMetric.ACCURACY] "eid"
        (fun _ => MetricOutcome.ok (9/10) "good") 0 (SinkOutcome.ok none)).scores ≠ [] →
      (evaluate_single_case { input := "q" } "resp" [EvaluationMetric.ACCURACY] "eid"
        (fun _ => MetricOutcome.ok (9/10) "good") 0 (SinkOutcome.ok none)).overall_score
        = ((evaluate_single_case { input := "q" } "resp" [EvaluationMetric.ACCURACY] "eid"
            (fun _ => MetricOutcome.ok (9/10) "good") 0 (SinkOutcome.ok none)).scores.map
            EvaluationScore.score).sum /
          (((evaluate_single_case { input := "q" } "resp" [EvaluationMetric.ACCURACY] "eid"
            (fun _ => MetricOutcome.ok (9/10) "good") 0 (SinkOutcome.ok none)).scores.length : ℚ))) ∧
     ((evaluate_single_case { input := "q" } "resp" [EvaluationMetric.ACCURACY] "eid"
        (fun _ => MetricOutcome.ok (9/10) "good") 0 (SinkOutcome.ok none)).passed = true ↔
      (7 : ℚ)/10 ≤ (evaluate_single_case { input := "q" } "resp" [EvaluationMetric.ACCURACY] "eid"
        (fun _ => MetricOutcome.ok (9/10) "good") 0 (SinkOutcome.ok none)).overall_score)) ∧
    (((evaluate_multiagent_workflow
        { workflow_id := "w", workflow_type := AgentType.AGENT2AGENT,
          conversation := { conversation_id := "c", agents := [], messages := [] },
          evaluators := [EvaluationMetric.RELEVANCE] }
        "eid2" (fun _ => MetricOutcome.ok 1 "full") 0 (SinkOutcome.ok none)).scores = []
        ↔ (MultiAgentEvaluationRequest.evaluators
          { workflow_id := "w", workflow_type := AgentType.AGENT2AGENT,
            conversation := { conversation_id := "c", agents := [], messages := [] },
            evaluators := [EvaluationMetric.RELEVANCE] }) = []) ∧
     ((evaluate_multiagent_workflow
        { workflow_id := "w", workflow_type := AgentType.AGENT2AGENT,
          conversation := { conversation_id := "c", agents := [], messages := [] },
          evaluators := [EvaluationMetric.RELEVANCE] }
        "eid2" (fun _ => MetricOutcome.ok 1 "full") 0 (SinkOutcome.ok none)).scores = [] →
      (evaluate_multiagent_workflow
        { workflow_id := "w", workflow_type := AgentType.AGENT2AGENT,
          conversation := { conversation_id := "c", agents := [], messages := [] },
          evaluators := [EvaluationMetric.RELEVANCE] }
        "eid2" (fun _ => MetricOutcome.ok 1 "full") 0 (SinkOutcome.ok none)).overall_score = 0) ∧
     ((evaluate_multiagent_workflow
        { workflow_id := "w", workflow_type := AgentType.AGENT2AGENT,
          conversation := { conversation_id := "c", agents := [], messages := [] },
          evaluators := [EvaluationMetric.RELEVANCE] }
        "eid2" (fun _ => MetricOutcome.ok 1 "full") 0 (SinkOutcome.ok none)).scores ≠ [] →
      (evaluate_multiagent_workflow
        { workflow_id := "w", workflow_type := AgentType.AGENT2AGENT,
          conversation := { conversation_id := "c", agents := [], messages := [] },
          evaluators := [EvaluationMetric.RELEVANCE] }
        "eid2" (fun _ => MetricOutcome.ok 1 "full") 0 (SinkOutcome.ok none)).overall_score
        = ((evaluate_multiagent_workflow
            { workflow_id := "w", workflow_type := AgentType.AGENT2AGENT,
              conversation := { conversation_id := "c", agents := [], messages := [] },
              evaluators := [EvaluationMetric.RELEVANCE] }
            "eid2" (fun _ => MetricOutcome.ok 1 "full") 0 (SinkOutcome.ok none)).scores.map
            EvaluationScore.score).sum /
          (((evaluate_multiagent_workflow
            { workflow_id := "w", workflow_type := AgentType.AGENT2AGENT,
              conversation := { conversation_id := "c", agents := [], messages := [] },
              evaluators := [EvaluationMetric.RELEVANCE] }
            "eid2" (fun _ => MetricOutcome.ok 1 "full") 0 (SinkOutcome.ok none)).scores.length : ℚ))) ∧
     ((evaluate_multiagent_workflow
        { workflow_id := "w", workflow_type := AgentType.AGENT2AGENT,
          conversation := { conversation_id := "c", agents := [], messages := [] },
          evaluators := [EvaluationMetric.RELEVANCE] }
        "eid2" (fun _ => MetricOutcome.ok 1 "full") 0 (SinkOutcome.ok none)).passed = true ↔
      (7 : ℚ)/10 ≤ (evaluate_multiagent_workflow
        { workflow_id := "w", workflow_type := AgentType.AGENT2AGENT,
          conversation := { conversation_id := "c", agents := [], messages := [] },
          evaluators := [EvaluationMetric.RELEVANCE] }
        "eid2" (fun _ => MetricOutcome.ok 1 "full") 0 (SinkOutcome.ok none)).overall_score)) :=
  c1_overall_score_mean_amended _ _ _ _ _ _ _ _ _ _ _ _ _ rfl _ rfl

/-! ### Claim C2 -/

/-- C2 counterexample: in `evaluate_multiagent_workflow` a failing
metric's explanation is `"Multi-agent evaluation failed: <message>"`,
not the claimed `"Evaluation failed: <message>"`. -/
theorem c2_multiagent_failure_text_counterexample :
    (evaluate_multiagent_workflow
      { workflow_id := "w", workflow_type := AgentType.AGENT2AGENT,
        conversation := { conversation_id := "c", agents := [], messages := [] },
        evaluators := [EvaluationMetric.ACCURACY] }
      "eid" (fun _ => MetricOutcome.exn "boom") 0 (SinkOutcome.ok none)).scores.map
      EvaluationScore.explanation = ["Multi-agent evaluation failed: boom"] ∧
    ("Multi-agent evaluation failed: boom" : String) ≠ "Evaluation failed: boom" := by
  constructor
  · rw [evaluate_multiagent_workflow_scores]
    simp [scoresSpec, scoreEntry]
  · decide

/-- C2 (amended): in both evaluators each requested metric contributes
exactly one score, in request order; a metric whose evaluation raises
contributes score `0.0` with `passed = false` and explanation
`"Evaluation failed: <message>"` in `evaluate_single_case` but
`"Multi-agent evaluation failed: <message>"` in
`evaluate_multiagent_workflow`; every other requested metric is still
evaluated and contributes its own score. -/
theorem c2_per_metric_isolation_amended (tc : TestCase) (resp : String)
    (metrics : List EvaluationMetric) (eid : String) (o : Nat → MetricOutcome)
    (t : ℚ) (sink : SinkOutcome)
    (req : MultiAgentEvaluationRequest) (eid2 : String) (o2 : Nat → MetricOutcome)
    (t2 : ℚ) (sink2 : SinkOutcome)
    (r : EvaluationResult) (hr : r = evaluate_single_case tc resp metrics eid o t sink)
    (w : EvaluationResult) (hw : w = evaluate_multiagent_workflow req eid2 o2 t2 sink2) :
    (r.scores.length = metrics.length ∧
     ∀ (j : Nat) (h1 : j < r.scores.length) (h2 : j < metrics.length),
       (∀ msg, o j = MetricOutcome.exn msg →
         r.scores[j] = ⟨metrics[j], 0, "Evaluation failed: " ++ msg, false, 7/10⟩) ∧
       (∀ v e, o j = MetricOutcome.ok v e →
         r.scores[j] = ⟨metrics[j], v, e, decide ((7 : ℚ)/10 ≤ v), 7/10⟩)) ∧
    (w.scores.length = req.evaluators.length ∧
     ∀ (j : Nat) (h1 : j < w.scores.length) (h2 : j < req.evaluators.length),
       (∀ msg, o2 j = MetricOutcome.exn msg →
         w.scores[j] = ⟨req.evaluators[j], 0, "Multi-agent evaluation failed: " ++ msg,
           false, 7/10⟩) ∧
       (∀ v e, o2 j = MetricOutcome.ok v e →
         w.scores[j] = ⟨req.evaluators[j], v, e, decide ((7 : ℚ)/10 ≤ v), 7/10⟩)) := by
  subst hr hw
  refine ⟨⟨?_, ?_⟩, ?_, ?_⟩
  · rw [evaluate_single_case_scores, scoresSpec_length]
  · intro j h1 h2
    have h1s : j < (scoresSpec "Evaluation failed: " o 0 metrics).length := by
      rw [← evaluate_single_case_scores tc resp metrics eid o t sink]; exact h1
    constructor
    · intro msg hmsg
      simp only [evaluate_single_case_scores]
      rw [scoresSpec_getElem "Evaluation failed: " o metrics 0 j h1s h2]
      simp [scoreEntry, hmsg]
    · intro v e hok
      simp only [evaluate_single_case_scores]
      rw [scoresSpec_getElem "Evaluation failed: " o metrics 0 j h1s h2]
      simp [scoreEntry, hok]
  · rw [evaluate_multiagent_workflow_scores, scoresSpec_length]
  · intro j h1 h2
    have h1s : j < (scoresSpec "Multi-agent evaluation failed: " o2 0 req.evaluators).length := by
      rw [← evaluate_multiagent_workflow_scores req eid2 o2 t2 sink2]; exact h1
    constructor
    · intro msg hmsg
      simp only [evaluate_multiagent_workflow_scores]
      rw [scoresSpec_getElem "Multi-agent evaluation failed: " o2 req.evaluators 0 j h1s h2]
      simp [scoreEntry, hmsg]
    · intro v e hok
      simp only [evaluate_multiagent_workflow_scores]
      rw [scoresSpec_getElem "Multi-agent evaluation failed: " o2 req.evaluators 0 j h1s h2]
      simp [scoreEntry, hok]

/-- C2 witness: two requested metrics where the first raises and the
second succeeds — the failed metric gets the zero score with the
per-evaluator failure text and the sibling metric still contributes. -/
theorem c2_per_metric_isolation_witness :
    (evaluate_single_case { input := "q" } "resp"
      [EvaluationMetric.ACCURACY, EvaluationMetric.RELEVANCE] "eid"
      (fun i => if i = 0 then MetricOutcome.exn "boom" else MetricOutcome.ok 1 "fine")
      0 (SinkOutcome.ok none)).scores.length = 2 ∧
    (evaluate_single_case { input := "q" } "resp"
      [EvaluationMetric.ACCURACY, EvaluationMetric.RELEVANCE] "eid"
      (fun i => if i = 0 then MetricOutcome.exn "boom" else MetricOutcome.ok 1 "fine")
      0 (SinkOutcome.ok none)).scores[0]?
      = some ⟨EvaluationMetric.ACCURACY, 0, "Evaluation failed: boom", false, 7/10⟩ ∧
    (evaluate_single_case { input := "q" } "resp"
      [EvaluationMetric.ACCURACY, EvaluationMetric.RELEVANCE] "eid"
      (fun i => if i = 0 then MetricOutcome.exn "boom" else MetricOutcome.ok 1 "fine")
      0 (SinkOutcome.ok none)).scores[1]?
      = some ⟨EvaluationMetric.RELEVANCE, 1, "fine", decide ((7 : ℚ)/10 ≤ 1), 7/10⟩ ∧
    (evaluate_multiagent_workflow
      { workflow_id := "w", workflow_type := AgentType.AGENT2AGENT,
        conversation := { conversation_id := "c", agents := [], messages := [] },
        evaluators := [EvaluationMetric.ACCURACY] }
      "eid" (fun _ => MetricOutcome.exn "boom") 0 (SinkOutcome.ok none)).scores[0]?
      = some ⟨EvaluationMetric.ACCURACY, 0, "Multi-agent evaluation failed: boom",
          false, 7/10⟩ := by
  have h := c2_per_metric_isolation_amended { input := "q" } "resp"
    [EvaluationMetric.ACCURACY, EvaluationMetric.RELEVANCE] "eid"
    (fun i => if i = 0 then MetricOutcome.exn "boom" else MetricOutcome.ok 1 "fine")
    0 (SinkOutcome.ok none)
    { workflow_id := "w", workflow_type := AgentType.AGENT2AGENT,
      conversation := { conversation_id := "c", agents := [], messages := [] },
      evaluators := [EvaluationMetric.ACCURACY] }
    "eid" (fun _ => MetricOutcome.exn "boom") 0 (SinkOutcome.ok none) _ rfl _ rfl
  obtain ⟨⟨hlen, hidx⟩, hlen2, hidx2⟩ := h
  have hl : (evaluate_single_case { input := "q" } "resp"
      [EvaluationMetric.ACCURACY, EvaluationMetric.RELEVANCE] "eid"
      (fun i => if i = 0 then MetricOutcome.exn "boom" else MetricOutcome.ok 1 "fine")
      0 (SinkOutcome.ok none)).scores.length = 2 := by simpa using hlen
  have hl2 : (evaluate_multiagent_workflow
      { workflow_id := "w", workflow_type := AgentType.AGENT2AGENT,
        conversation := { conversation_id := "c", agents := [], messages := [] },
        evaluators := [EvaluationMetric.ACCURACY] }
      "eid" (fun _ => MetricOutcome.exn "boom") 0 (SinkOutcome.ok none)).scores.length
      = 1 := by simpa using hlen2
  have e0 := (hidx 0 (by omega) (by simp)).1 "boom" (by simp)
  have e1 := (hidx 1 (by omega) (by simp)).2 1 "fine" (by simp)
  have f0 := (hidx2 0 (by omega) (by simp)).1 "boom" (by simp)
  refine ⟨hl, ?_, ?_, ?_⟩
  · rw [List.getElem?_eq_getElem (by omega)]
    exact congrArg some e0
  · rw [List.getElem?_eq_getElem (by omega)]
    exact congrArg some e1
  · rw [List.getElem?_eq_getElem (by omega)]
    exact congrArg some f0

/-! ### Claim C3 -/

/-- C3: `AgentEvaluator.evaluate_agent` returns exactly one result per
input test case, in order (the j-th result is the per-case body run on
the j-th test case); when the per-case orchestration raises, the j-th
result has empty scores, `overall_score = 0.0`, `passed = false`, and
the error message recorded in its metadata. -/
theorem c3_one_result_per_case (req : EvaluationRequest) (oracles : Nat → CaseOracle) :
    (evaluate_agent req oracles).length = req.test_cases.length ∧
    (∀ (j : Nat) (h1 : j < (evaluate_agent req oracles).length)
       (h2 : j < req.test_cases.length),
       (evaluate_agent req oracles)[j] = run_test_case req req.test_cases[j] (oracles j) ∧
       (∀ err, (oracles j).orch = some err →
         (evaluate_agent req oracles)[j] =
           { evaluation_id := (oracles j).failed_evaluation_id
             agent_id := some req.agent_id
             workflow_id := none
             test_case_id := req.test_cases[j].id
             scores := []
             overall_score := 0
             passed := false
             execution_time_ms := 0
             opik_trace_id := none
             session_id := req.test_cases[j].session_id
             metadata := [("error", MetaVal.str err)] })) := by
  constructor
  · rw [evaluate_agent, evalAgentGo_length]
  · intro j h1 h2
    have h1g : j < (evalAgentGo req oracles 0 req.test_cases).length := by
      rw [evalAgentGo_length]; exact h2
    have hget := evalAgentGo_get req oracles req.test_cases 0 j h1g h2
    have hj : (evaluate_agent req oracles)[j]
        = run_test_case req req.test_cases[j] (oracles j) := by
      simp only [evaluate_agent]
      simpa [List.get_eq_getElem] using hget
    refine ⟨hj, ?_⟩
    intro err herr
    rw [hj, run_test_case, herr]

/-- C3 witness: a two-case request where the second case's
orchestration raises with message `"orch down"`. -/
theorem c3_one_result_per_case_witness :
    (evaluate_agent
      { agent_id := "a", test_cases := [{ input := "q1" }, { input := "q2", id := some "t2" }],
        evaluators := [EvaluationMetric.ACCURACY] }
      (fun i => if i = 0 then
        { orch := none, agent := AgentOutcome.ok "fine",
          metricOutcome := fun _ => MetricOutcome.ok 1 "good", evaluation_id := "e0",
          execution_time_ms := 0, sink := SinkOutcome.ok none,
          failed_evaluation_id := "f0" }
       else
        { orch := some "orch down", agent := AgentOutcome.ok "fine",
          metricOutcome := fun _ => MetricOutcome.ok 1 "good", evaluation_id := "e1",
          execution_time_ms := 0, sink := SinkOutcome.ok none,
          failed_evaluation_id := "f1" })).length = 2 ∧
    (evaluate_agent
      { agent_id := "a", test_cases := [{ input := "q1" }, { input := "q2", id := some "t2" }],
        evaluators := [EvaluationMetric.ACCURACY] }
      (fun i => if i = 0 then
        { orch := none, agent := AgentOutcome.ok "fine",
          metricOutcome := fun _ => MetricOutcome.ok 1 "good", evaluation_id := "e0",
          execution_time_ms := 0, sink := SinkOutcome.ok none,
          failed_evaluation_id := "f0" }
       else
        { orch := some "orch down", agent := AgentOutcome.ok "fine",
          metricOutcome := fun _ => MetricOutcome.ok 1 "good", evaluation_id := "e1",
          execution_time_ms := 0, sink := SinkOutcome.ok none,
          failed_evaluation_id := "f1" }))[1]?
      = some
          { evaluation_id := "f1"
            agent_id := some "a"
            workflow_id := none
            test_case_id := some "t2"
            scores := []
            overall_score := 0
            passed := false
            execution_time_ms := 0
            opik_trace_id := none
            session_id := none
            metadata := [("error", MetaVal.str "orch down")] } := by
  have h := c3_one_result_per_case
    { agent_id := "a", test_cases := [{ input := "q1" }, { input := "q2", id := some "t2" }],
      evaluators := [EvaluationMetric.ACCURACY] }
    (fun i => if i = 0 then
      { orch := none, agent := AgentOutcome.ok "fine",
        metricOutcome := fun _ => MetricOutcome.ok 1 "good", evaluation_id := "e0",
        execution_time_ms := 0, sink := SinkOutcome.ok none,
        failed_evaluation_id := "f0" }
     else
      { orch := some "orch down", agent := AgentOutcome.ok "fine",
        metricOutcome := fun _ => MetricOutcome.ok 1 "good", evaluation_id := "e1",
        execution_time_ms := 0, sink := SinkOutcome.ok none,
        failed_evaluation_id := "f1" })
  obtain ⟨hlen, hidx⟩ := h
  have hl : (evaluate_agent
      { agent_id := "a", test_cases := [{ input := "q1" }, { input := "q2", id := some "t2" }],
        evaluators := [EvaluationMetric.ACCURACY] }
      (fun i => if i = 0 then
        { orch := none, agent := AgentOutcome.ok "fine",
          metricOutcome := fun _ => MetricOutcome.ok 1 "good", evaluation_id := "e0",
          execution_time_ms := 0, sink := SinkOutcome.ok none,
          failed_evaluation_id := "f0" }
       else
        { orch := some "orch down", agent := AgentOutcome.ok "fine",
          metricOutcome := fun _ => MetricOutcome.ok 1 "good", evaluation_id := "e1",
          execution_time_ms := 0, sink := SinkOutcome.ok none,
          failed_evaluation_id := "f1" })).length = 2 := by simpa using hlen
  have e1 := (hidx 1 (by omega) (by simp)).2 "orch down" (by simp)
  refine ⟨hl, ?_⟩
  rw [List.getElem?_eq_getElem (by omega)]
  rw [e1]
  rfl

/-! ### Claim C4 -/

/-- C4: `evaluate_agent2agent_flow` extends the base workflow result by
exactly one score tagged `AGENT_COORDINATION` (final length = number of
requested evaluators + 1), and `overall_score`/`passed` are recomputed
as the mean over the extended list. -/
theorem c4_a2a_appends_coordination_score (req : MultiAgentEvaluationRequest)
    (eid : String) (o : Nat → MetricOutcome) (t : ℚ) (sink : SinkOutcome)
    (a2aResponse : String) :
    ∃ s : EvaluationScore,
      (evaluate_agent2agent_flow req eid o t sink a2aResponse).scores
        = (evaluate_multiagent_workflow req eid o t sink).scores ++ [s] ∧
      s.metric = EvaluationMetric.AGENT_COORDINATION ∧
      (evaluate_agent2agent_flow req eid o t sink a2aResponse).scores.length
        = req.evaluators.length + 1 ∧
      (evaluate_agent2agent_flow req eid o t sink a2aResponse).overall_score
        = ((evaluate_agent2agent_flow req eid o t sink a2aResponse).scores.map
            EvaluationScore.score).sum /
          ((evaluate_agent2agent_flow req eid o t sink a2aResponse).scores.length : ℚ) ∧
      ((evaluate_agent2agent_flow req eid o t sink a2aResponse).passed = true ↔
        (7 : ℚ)/10 ≤ (evaluate_agent2agent_flow req eid o t sink a2aResponse).overall_score) := by
  refine ⟨⟨EvaluationMetric.AGENT_COORDINATION,
    (evaluate_a2a_protocol_compliance req.conversation a2aResponse).1,
    (evaluate_a2a_protocol_compliance req.conversation a2aResponse).2,
    decide ((7 : ℚ)/10 ≤ (evaluate_a2a_protocol_compliance req.conversation a2aResponse).1),
    7/10⟩, ?_, rfl, ?_, ?_, ?_⟩
  · simp [evaluate_agent2agent_flow]
  · simp only [evaluate_agent2agent_flow]
    rw [List.length_append, evaluate_multiagent_workflow_scores, scoresSpec_length]
    rfl
  · simp [evaluate_agent2agent_flow]
  · simp [evaluate_agent2agent_flow]

/-! ### Parser claim helpers -/

theorem lineFails_other (l : List Char) (h : classifyLine l = LineClass.other) :
    lineFails l = false := by
  unfold lineFails; rw [h]

theorem lineFails_expl (l : List Char) (txt : String)
    (h : classifyLine l = LineClass.expl txt) : lineFails l = false := by
  unfold lineFails; rw [h]

theorem lineFails_score_some (l : List Char) (tok : String) (v : ℚ)
    (h : classifyLine l = LineClass.score tok) (hv : pyFloat tok = some v) :
    lineFails l = false := by
  simp [lineFails, h, hv]

theorem not_score_of_expl (l : List Char) (txt : String)
    (h : classifyLine l = LineClass.expl txt) :
    ∀ tok, classifyLine l ≠ LineClass.score tok := by
  intro tok hc; rw [h] at hc; exact LineClass.noConfusion hc

theorem not_score_of_other (l : List Char) (h : classifyLine l = LineClass.other) :
    ∀ tok, classifyLine l ≠ LineClass.score tok := by
  intro tok hc; rw [h] at hc; exact LineClass.noConfusion hc

theorem not_expl_of_score (l : List Char) (tok : String)
    (h : classifyLine l = LineClass.score tok) :
    ∀ txt, classifyLine l ≠ LineClass.expl txt := by
  intro txt hc; rw [h] at hc; exact LineClass.noConfusion hc

theorem not_expl_of_other (l : List Char) (h : classifyLine l = LineClass.other) :
    ∀ txt, classifyLine l ≠ LineClass.expl txt := by
  intro txt hc; rw [h] at hc; exact LineClass.noConfusion hc

theorem updLine_score (st : ℚ × String) (l : List Char) (tok : String) (v : ℚ)
    (h : classifyLine l = LineClass.score tok) (hv : pyFloat tok = some v) :
    updLine st l = (v, st.2) := by
  simp [updLine, h, hv]

theorem updLine_expl (st : ℚ × String) (l : List Char) (txt : String)
    (h : classifyLine l = LineClass.expl txt) : updLine st l = (st.1, txt) := by
  unfold updLine; rw [h]

theorem updLine_other (st : ℚ × String) (l : List Char)
    (h : classifyLine l = LineClass.other) : updLine st l = st := by
  unfold updLine; rw [h]

theorem parse_llm_response_ok (response : String)
    (h : ∀ l ∈ splitOnChar '\n' (pyStrip response.toList), lineFails l = false) :
    parse_llm_response response
      = (max 0 (min 1 (((splitOnChar '\n' (pyStrip response.toList)).foldl updLine
          (1/2, "Evaluation completed")).1)),
         ((splitOnChar '\n' (pyStrip response.toList)).foldl updLine
          (1/2, "Evaluation completed")).2) := by
  unfold parse_llm_response
  rw [parseLinesGo_ok _ _ h]

theorem clamp_half : max 0 (min 1 ((1 : ℚ)/2)) = 1/2 := by
  rw [min_eq_right (by norm_num : (1 : ℚ)/2 ≤ 1), max_eq_right (by norm_num : (0 : ℚ) ≤ 1/2)]

/-! ### Claim C5 -/

/-- C5: for every response text containing one well-formed `SCORE:`
line (with a numerically parseable token of value `v`) and one
`EXPLANATION:` line, in either order, with every other line matching
neither pattern, the parser returns `v` clamped to `[0, 1]` together
with the stripped text after `EXPLANATION:`. -/
theorem c5_wellformed_score_and_explanation (response : String)
    (A B C : List (List Char)) (s e : List Char) (tok : String) (v : ℚ) (txt : String)
    (hs : classifyLine s = LineClass.score tok) (hv : pyFloat tok = some v)
    (he : classifyLine e = LineClass.expl txt)
    (hclean : ∀ l ∈ A ++ B ++ C, classifyLine l = LineClass.other)
    (hsplit : splitOnChar '\n' (pyStrip response.toList) = A ++ s :: (B ++ e :: C) ∨
              splitOnChar '\n' (pyStrip response.toList) = A ++ e :: (B ++ s :: C)) :
    parse_llm_response response = (max 0 (min 1 v), txt) := by
  have hA : ∀ l ∈ A, classifyLine l = LineClass.other := fun l hl => hclean l (by simp [hl])
  have hB : ∀ l ∈ B, classifyLine l = LineClass.other := fun l hl => hclean l (by simp [hl])
  have hC : ∀ l ∈ C, classifyLine l = LineClass.other := fun l hl => hclean l (by simp [hl])
  rcases hsplit with hsp | hsp
  · have hnofail : ∀ l ∈ splitOnChar '\n' (pyStrip response.toList), lineFails l = false := by
      rw [hsp]
      intro l hl
      simp only [List.mem_append, List.mem_cons] at hl
      rcases hl with h1 | h1 | h1 | h1 | h1
      · exact lineFails_other l (hA l h1)
      · exact h1 ▸ lineFails_score_some s tok v hs hv
      · exact lineFails_other l (hB l h1)
      · exact h1 ▸ lineFails_expl e txt he
      · exact lineFails_other l (hC l h1)
    rw [parse_llm_response_ok response hnofail, hsp]
    rw [List.foldl_append, foldl_updLine_other A _ hA, List.foldl_cons,
      updLine_score _ s tok v hs hv, List.foldl_append, foldl_updLine_other B _ hB,
      List.foldl_cons, updLine_expl _ e txt he, foldl_updLine_other C _ hC]
  · have hnofail : ∀ l ∈ splitOnChar '\n' (pyStrip response.toList), lineFails l = false := by
      rw [hsp]
      intro l hl
      simp only [List.mem_append, List.mem_cons] at hl
      rcases hl with h1 | h1 | h1 | h1 | h1
      · exact lineFails_other l (hA l h1)
      · exact h1 ▸ lineFails_expl e txt he
      · exact lineFails_other l (hB l h1)
      · exact h1 ▸ lineFails_score_some s tok v hs hv
      · exact lineFails_other l (hC l h1)
    rw [parse_llm_response_ok response hnofail, hsp]
    rw [List.foldl_append, foldl_updLine_other A _ hA, List.foldl_cons,
      updLine_expl _ e txt he, List.foldl_append, foldl_updLine_other B _ hB,
      List.foldl_cons, updLine_score _ s tok v hs hv, foldl_updLine_other C _ hC]

theorem ratOfRep_one_four : ratOfRep ⟨false, ['1'], ['4'], none⟩ = 7/5 := by
  have h1 : natOfDigits ['1'] = 1 := by decide
  have h4 : natOfDigits ['4'] = 4 := by decide
  simp [ratOfRep, h1, h4]
  norm_num

/-- C5 witness: `"SCORE: 1.4\nEXPLANATION: looks good"` parses to the
clamped score `1.0` with explanation `"looks good"`. -/
theorem c5_wellformed_score_and_explanation_witness :
    parse_llm_response "SCORE: 1.4\nEXPLANATION: looks good" = (1, "looks good") := by
  have h := c5_wellformed_score_and_explanation "SCORE: 1.4\nEXPLANATION: looks good"
    [] [] [] "SCORE: 1.4".toList "EXPLANATION: looks good".toList "1.4"
    (ratOfRep ⟨false, ['1'], ['4'], none⟩) "looks good"
    (by decide) rfl (by decide) (by simp) (Or.inl (by decide))
  rw [h, ratOfRep_one_four,
    min_eq_left (by norm_num : (1 : ℚ) ≤ 7/5),
    max_eq_right (by norm_num : (0 : ℚ) ≤ 1)]

/-! ### Claim C6 -/

/-- C6: with no `SCORE:` line present the parser returns score `0.5`,
with explanation `"Evaluation completed"` when no `EXPLANATION:` line is
present either, or the last found explanation text when one is; and when
a `SCORE:` line's value fails to parse as a number (all earlier lines
being failure-free), the parser returns score `0.5` with an explanation
beginning `"Failed to parse evaluation:"` (CPython's `ValueError`
message follows the prefix). -/
theorem c6_parse_fallback_rules (response : String) :
    ((∀ l ∈ splitOnChar '\n' (pyStrip response.toList), classifyLine l = LineClass.other) →
      parse_llm_response response = (1/2, "Evaluation completed")) ∧
    (∀ (A B : List (List Char)) (e : List Char) (txt : String),
      splitOnChar '\n' (pyStrip response.toList) = A ++ e :: B →
      classifyLine e = LineClass.expl txt →
      (∀ l ∈ A, ∀ tok, classifyLine l ≠ LineClass.score tok) →
      (∀ l ∈ B, classifyLine l = LineClass.other) →
      parse_llm_response response = (1/2, txt)) ∧
    (∀ (A B : List (List Char)) (f : List Char) (tok : String),
      splitOnChar '\n' (pyStrip response.toList) = A ++ f :: B →
      classifyLine f = LineClass.score tok →
      pyFloat tok = none →
      (∀ l ∈ A, lineFails l = false) →
      parse_llm_response response
        = (1/2, "Failed to parse evaluation: "
            ++ ("could not convert string to float: '" ++ tok ++ "'"))) := by
  refine ⟨?_, ?_, ?_⟩
  · intro hall
    have hnofail : ∀ l ∈ splitOnChar '\n' (pyStrip response.toList), lineFails l = false :=
      fun l hl => lineFails_other l (hall l hl)
    rw [parse_llm_response_ok response hnofail,
      foldl_updLine_other _ _ hall, clamp_half]
  · intro A B e txt hsp he hA hB
    have hnofail : ∀ l ∈ splitOnChar '\n' (pyStrip response.toList), lineFails l = false := by
      rw [hsp]
      intro l hl
      simp only [List.mem_append, List.mem_cons] at hl
      rcases hl with h1 | h1 | h1
      · exact lineFails_of_not_score l (hA l h1)
      · exact h1 ▸ lineFails_expl e txt he
      · exact lineFails_other l (hB l h1)
    rw [parse_llm_response_ok response hnofail, hsp]
    rw [List.foldl_append, List.foldl_cons, updLine_expl _ e txt he,
      foldl_updLine_other B _ hB]
    have hfst : ((A.foldl updLine (1/2, "Evaluation completed")).1, txt).1 = (1/2 : ℚ) := by
      simp [foldl_updLine_fst A _ hA]
    rw [hfst, clamp_half]
  · intro A B f tok hsp hf hnone hA
    have hgo : parseLinesGo (1/2, "Evaluation completed") (A ++ f :: B)
        = Except.error ("could not convert string to float: '" ++ tok ++ "'") := by
      rw [parseLinesGo_append_ok A _ (f :: B) hA]
      simp [parseLinesGo, stepLine, hf, hnone]
    unfold parse_llm_response
    rw [hsp, hgo]

/-- C6 witness: the three fallback behaviors at concrete inputs —
no recognizable lines at all, an explanation without a score, and a
garbled score token. -/
theorem c6_parse_fallback_rules_witness :
    parse_llm_response "hello world" = (1/2, "Evaluation completed") ∧
    parse_llm_response "EXPLANATION: hi" = (1/2, "hi") ∧
    parse_llm_response "SCORE: abc"
      = (1/2, "Failed to parse evaluation: could not convert string to float: 'abc'") := by
  refine ⟨?_, ?_, ?_⟩
  · exact (c6_parse_fallback_rules "hello world").1 (by decide)
  · exact (c6_parse_fallback_rules "EXPLANATION: hi").2.1 [] [] "EXPLANATION: hi".toList "hi"
      (by decide) (by decide) (by simp) (by simp)
  · have h := (c6_parse_fallback_rules "SCORE: abc").2.2 [] [] "SCORE: abc".toList "abc"
      (by decide) (by decide) rfl (by simp)
    rw [h]
    constructor

/-! ### Claim C10 -/

/-- C10: when several lines match `SCORE:` (case-insensitively, via the
uppercased-prefix test inside `classifyLine`) and all their tokens
parse, the last such line's value wins (each later match overwrites the
earlier one); likewise the last `EXPLANATION:` match supplies the
explanation. -/
theorem c10_last_match_wins (response : String) :
    (∀ (A B C : List (List Char)) (l1 l2 : List Char) (tok1 tok2 : String) (v1 v2 : ℚ),
      splitOnChar '\n' (pyStrip response.toList) = A ++ l1 :: (B ++ l2 :: C) →
      classifyLine l1 = LineClass.score tok1 → pyFloat tok1 = some v1 →
      classifyLine l2 = LineClass.score tok2 → pyFloat tok2 = some v2 →
      (∀ l ∈ A, lineFails l = false) →
      (∀ l ∈ B, ∀ tok, classifyLine l ≠ LineClass.score tok) →
      (∀ l ∈ C, ∀ tok, classifyLine l ≠ LineClass.score tok) →
      (parse_llm_response response).1 = max 0 (min 1 v2)) ∧
    (∀ (A B C : List (List Char)) (e1 e2 : List Char) (t1 t2 : String),
      splitOnChar '\n' (pyStrip response.toList) = A ++ e1 :: (B ++ e2 :: C) →
      classifyLine e1 = LineClass.expl t1 → classifyLine e2 = LineClass.expl t2 →
      (∀ l ∈ A, lineFails l = false) →
      (∀ l ∈ B, lineFails l = false) →
      (∀ l ∈ C, lineFails l = false) →
      (∀ l ∈ C, ∀ txt, classifyLine l ≠ LineClass.expl txt) →
      (parse_llm_response response).2 = t2) := by
  constructor
  · intro A B C l1 l2 tok1 tok2 v1 v2 hsp h1 hv1 h2 hv2 hA hB hC
    have hnofail : ∀ l ∈ splitOnChar '\n' (pyStrip response.toList), lineFails l = false := by
      rw [hsp]
      intro l hl
      simp only [List.mem_append, List.mem_cons] at hl
      rcases hl with hm | hm | hm | hm | hm
      · exact hA l hm
      · exact hm ▸ lineFails_score_some l1 tok1 v1 h1 hv1
      · exact lineFails_of_not_score l (hB l hm)
      · exact hm ▸ lineFails_score_some l2 tok2 v2 h2 hv2
      · exact lineFails_of_not_score l (hC l hm)
    rw [parse_llm_response_ok response hnofail, hsp]
    rw [List.foldl_append, List.foldl_cons, List.foldl_append, List.foldl_cons]
    rw [updLine_score _ l2 tok2 v2 h2 hv2]
    simp only [foldl_updLine_fst C _ hC]
  · intro A B C e1 e2 t1 t2 hsp h1 h2 hA hB hC hCexpl
    have hnofail : ∀ l ∈ splitOnChar '\n' (pyStrip response.toList), lineFails l = false := by
      rw [hsp]
      intro l hl
      simp only [List.mem_append, List.mem_cons] at hl
      rcases hl with hm | hm | hm | hm | hm
      · exact hA l hm
      · exact hm ▸ lineFails_expl e1 t1 h1
      · exact hB l hm
      · exact hm ▸ lineFails_expl e2 t2 h2
      · exact hC l hm
    rw [parse_llm_response_ok response hnofail, hsp]
    rw [List.foldl_append, List.foldl_cons, List.foldl_append, List.foldl_cons]
    rw [updLine_expl _ e2 t2 h2]
    simp only [foldl_updLine_snd C _ hCexpl]

theorem ratOfRep_zero_nine : ratOfRep ⟨false, ['0'], ['9'], none⟩ = 9/10 := by
  have h0 : natOfDigits ['0'] = 0 := by decide
  have h9 : natOfDigits ['9'] = 9 := by decide
  simp [ratOfRep, h0, h9]

/-- C10 witness: two `SCORE:` matches (one lowercase, showing
case-insensitive prefix matching) and two `EXPLANATION:` matches — the
later line wins in both channels. -/
theorem c10_last_match_wins_witness :
    (parse_llm_response "score: 0.2\nSCORE: 0.9\nexplanation: a\nEXPLANATION: b").1
      = 9/10 ∧
    (parse_llm_response "score: 0.2\nSCORE: 0.9\nexplanation: a\nEXPLANATION: b").2
      = "b" := by
  constructor
  · have h := (c10_last_match_wins "score: 0.2\nSCORE: 0.9\nexplanation: a\nEXPLANATION: b").1
      [] [] ["explanation: a".toList, "EXPLANATION: b".toList]
      "score: 0.2".toList "SCORE: 0.9".toList "0.2" "0.9"
      (ratOfRep ⟨false, ['0'], ['2'], none⟩) (ratOfRep ⟨false, ['0'], ['9'], none⟩)
      (by decide) (by decide) rfl (by decide) rfl (by simp) (by simp)
      (by
        intro l hl
        simp only [List.mem_cons, List.not_mem_nil, or_false] at hl
        rcases hl with rfl | rfl
        · exact not_score_of_expl _ "a" (by decide)
        · exact not_score_of_expl _ "b" (by decide))
    rw [h, ratOfRep_zero_nine,
      min_eq_right (by norm_num : (9 : ℚ)/10 ≤ 1),
      max_eq_right (by norm_num : (0 : ℚ) ≤ 9/10)]
  · exact (c10_last_match_wins "score: 0.2\nSCORE: 0.9\nexplanation: a\nEXPLANATION: b").2
      ["score: 0.2".toList, "SCORE: 0.9".toList] [] []
      "explanation: a".toList "EXPLANATION: b".toList "a" "b"
      (by decide) (by decide) (by decide)
      (by
        intro l hl
        simp only [List.mem_cons, List.not_mem_nil, or_false] at hl
        rcases hl with rfl | rfl
        · exact lineFails_score_some _ "0.2" (ratOfRep ⟨false, ['0'], ['2'], none⟩)
            (by decide) rfl
        · exact lineFails_score_some _ "0.9" (ratOfRep ⟨false, ['0'], ['9'], none⟩)
            (by decide) rfl)
      (by simp) (by simp) (by simp)

/-! ### Claim C7 -/

/-- C7: the conversation-quality metric short-circuits to
`(0.0, "No conversation data provided")` without invoking the judge
exactly when both the message list and the flattened conversation
string are empty; otherwise the judge is invoked and its response is
parsed. -/
theorem c7_conversation_quality_short_circuit (messages : List AgentMessage)
    (conversation : String) (judgeResponse : String) :
    (messages = [] → conversation = "" →
      conversation_quality_score messages conversation judgeResponse
        = ((0, "No conversation data provided"), false)) ∧
    ((messages ≠ [] ∨ conversation ≠ "") →
      (conversation_quality_score messages conversation judgeResponse).2 = true ∧
      (conversation_quality_score messages conversation judgeResponse).1
        = parse_llm_response judgeResponse) := by
  constructor
  · intro hm hc
    subst hm hc
    rfl
  · intro h
    have hcond : (messages.isEmpty && conversation.isEmpty) = false := by
      rcases h with h | h
      · have : messages.isEmpty = false := by
          cases messages with
          | nil => exact absurd rfl h
          | cons a t => rfl
        simp [this]
      · have : conversation.isEmpty = false := by
          cases hx : conversation.isEmpty with
          | false => rfl
          | true => exact absurd ((String.isEmpty_iff conversation).mp hx) h
        simp [this]
    constructor <;> simp [conversation_quality_score, hcond]

/-- C7 witness: the short-circuit at the fully empty input, and the
judge invocation as soon as one message exists. -/
theorem c7_conversation_quality_short_circuit_witness :
    conversation_quality_score [] "" "SCORE: 1.0\nEXPLANATION: ignored"
      = ((0, "No conversation data provided"), false) ∧
    (conversation_quality_score [⟨"a", "b", "hi"⟩] "" "ignored").2 = true ∧
    (conversation_quality_score [⟨"a", "b", "hi"⟩] "" "ignored").1
      = parse_llm_response "ignored" := by
  refine ⟨?_, ?_⟩
  · exact (c7_conversation_quality_short_circuit [] "" "SCORE: 1.0\nEXPLANATION: ignored").1
      rfl rfl
  · exact (c7_conversation_quality_short_circuit [⟨"a", "b", "hi"⟩] "" "ignored").2
      (Or.inl (by simp))

/-! ### Claim C8 -/

/-- C8: when the agent call times out, the response used for evaluation
is exactly `"Agent execution timed out"`; when the agent call raises,
it is `"Agent execution failed: <message>"`; in both cases the per-case
body proceeds to evaluate that placeholder text (producing the full
`evaluate_single_case` result) instead of aborting the test case. -/
theorem c8_agent_failure_placeholder (req : EvaluationRequest) (tc : TestCase)
    (o : CaseOracle) (ho : o.orch = none) :
    execute_agent_safely AgentOutcome.timeout = "Agent execution timed out" ∧
    (∀ m, execute_agent_safely (AgentOutcome.exn m) = "Agent execution failed: " ++ m) ∧
    (o.agent = AgentOutcome.timeout →
      run_test_case req tc o =
        { evaluate_single_case tc "Agent execution timed out" req.evaluators
            o.evaluation_id o.metricOutcome o.execution_time_ms o.sink with
          agent_id := some req.agent_id }) ∧
    (∀ m, o.agent = AgentOutcome.exn m →
      run_test_case req tc o =
        { evaluate_single_case tc ("Agent execution failed: " ++ m) req.evaluators
            o.evaluation_id o.metricOutcome o.execution_time_ms o.sink with
          agent_id := some req.agent_id }) := by
  refine ⟨rfl, fun m => rfl, ?_, ?_⟩
  · intro ht
    simp [run_test_case, ho, ht, execute_agent_safely]
  · intro m hm
    simp [run_test_case, ho, hm, execute_agent_safely]

/-- C8 witness: a timed-out agent call on a concrete request — the
result is the evaluation of the literal placeholder text. -/
theorem c8_agent_failure_placeholder_witness :
    run_test_case
      { agent_id := "a", test_cases := [{ input := "q" }],
        evaluators := [EvaluationMetric.ACCURACY] }
      { input := "q" }
      { orch := none, agent := AgentOutcome.timeout,
        metricOutcome := fun _ => MetricOutcome.ok 1 "good", evaluation_id := "e",
        execution_time_ms := 0, sink := SinkOutcome.ok none,
        failed_evaluation_id := "f" } =
      { evaluate_single_case { input := "q" } "Agent execution timed out"
          [EvaluationMetric.ACCURACY] "e" (fun _ => MetricOutcome.ok 1 "good") 0
          (SinkOutcome.ok none) with
        agent_id := some "a" } := by
  have h := (c8_agent_failure_placeholder
    { agent_id := "a", test_cases := [{ input := "q" }],
      evaluators := [EvaluationMetric.ACCURACY] }
    { input := "q" }
    { orch := none, agent := AgentOutcome.timeout,
      metricOutcome := fun _ => MetricOutcome.ok 1 "good", evaluation_id := "e",
      execution_time_ms := 0, sink := SinkOutcome.ok none,
      failed_evaluation_id := "f" } rfl).2.2.1 rfl
  exact h

/-! ### Claim C9 -/

/-- C9: when the sink's trace call raises, `_log_trace_to_opik` returns
the evaluation id itself as the fallback trace id (the embedding is a
total function: no exception propagates), and the returned
`EvaluationResult.opik_trace_id` is that id — in particular non-null —
in both `evaluate_single_case` and `evaluate_multiagent_workflow`. -/
theorem c9_trace_fallback_id (eid msg : String) (tc : TestCase) (resp : String)
    (metrics : List EvaluationMetric) (o : Nat → MetricOutcome) (t : ℚ)
    (req : MultiAgentEvaluationRequest) (o2 : Nat → MetricOutcome) (t2 : ℚ) :
    log_trace_to_opik eid (SinkOutcome.exn msg) = eid ∧
    (evaluate_single_case tc resp metrics eid o t (SinkOutcome.exn msg)).opik_trace_id
      = some eid ∧
    (evaluate_multiagent_workflow req eid o2 t2 (SinkOutcome.exn msg)).opik_trace_id
      = some eid ∧
    ((evaluate_single_case tc resp metrics eid o t (SinkOutcome.exn msg)).opik_trace_id).isSome
      = true := by
  refine ⟨rfl, ?_, ?_, ?_⟩
  · simp [evaluate_single_case, log_trace_to_opik]
  · simp [evaluate_multiagent_workflow, log_trace_to_opik]
  · simp [evaluate_single_case, log_trace_to_opik]
